import Mathlib

/-!
Shallow embedding of the lima host agent (`pkg/hostagent/hostagent.go`,
`pkg/hostagent/api/api.go`).  External effects (process spawning, sockets,
QMP commands, the filesystem) are abstracted by oracle structures whose
fields record which external calls succeed and with which results; each Go
function becomes a Lean function from its oracle to the sequence of visible
actions it performs together with its return value.  Go `error` values are
modelled as `Option Err` (`none` = nil).
-/

namespace Hostagent

/-- A Go error value; modelled by its message. -/
abbrev Err := String

/-- `api.Status` (pkg/hostagent/api/api.go).  All fields carry Go zero
values by default, matching the struct literal semantics used in
hostagent.go. -/
structure Status where
  running : Bool := false
  degraded : Bool := false
  aborted : Bool := false
  errors : List String := []
  sshLocalPort : Int := 0
deriving Repr, DecidableEq

/-- The externally visible actions the host agent can perform, in the
order performed.  `emit s` is a call to `emitEvent` with status `s`;
the remaining constructors name the side-effecting calls of
hostagent.go. -/
inductive Action where
  | spawnQEMU                      -- qCmd.Start()
  | emit (st : Status)             -- a.emitEvent(ctx, ev)
  | runSSHKeygen                   -- ssh-keygen -R ... (known-hosts reset)
  | sshMasterExit                  -- ssh.ExitMaster (first onClose action)
  | unmount (i : Nat)              -- m.close() for mount index i
  | qmpOpen                        -- qmp.NewSocketMonitor
  | qmpConnect                     -- qmpClient.Connect()
  | qmpPowerdown                   -- rawClient.SystemPowerdown()
  | timeoutElapsed                 -- the <-deadline branch fires
  | killProcess                    -- qCmd.Process.Kill()
  | removePidFile                  -- os.RemoveAll(qemuPIDPath)
  | removeLocalSock                -- os.RemoveAll(localUnix)
  | forwardAttempt                 -- forwardSSH(...) re-establishment
  | warnClosed                     -- log: connection closed unexpectedly
deriving Repr, DecidableEq

/-- An entry of the `onClose` LIFO list: the visible actions it performs
when invoked, and the error it returns (`none` = nil). -/
structure TDAction where
  trace : List Action
  result : Option Err
deriving Repr, DecidableEq

/-- `(a *HostAgent) close()` (hostagent.go:262-272): iterate the
`onClose` list from the last registered entry down to the first,
invoking each one and appending every non-nil error to the multierror.
The list argument is in registration order (head registered first);
the recursion mirrors the downward `for i := len-1; i >= 0; i--` loop:
all entries after the head run (recursively, latest first) before the
head does. -/
def close : List TDAction → List Action × List Err
  | [] => ([], [])
  | a :: rest =>
      let (tr, es) := close rest
      (tr ++ a.trace, es ++ a.result.toList)

/-- C2: `close` (the Teardown Stack's `runAll`) invokes the registered
actions in exactly reverse order of registration — its action trace is
the concatenation of the entries' traces in reverse registration order —
a failure in any action does not prevent the others from running (the
trace shape does not depend on the results), and the combined error
collects every individual failure, in invocation order. -/
theorem close_reverse_order_collects_all_errors (l : List TDAction) :
    close l = (((l.reverse.map TDAction.trace).flatten),
               l.reverse.filterMap TDAction.result) := by
  induction l with
  | nil => rfl
  | cons a rest ih =>
      cases h : a.result <;>
        simp [close, ih, List.filterMap_append, Option.toList, h]

/-- Oracle for the shutdown protocol (`shutdownQEMU`/`killQEMU`,
hostagent.go:189-228): which external calls fail, whether the process
exits before the graceful deadline, and the result read from `qWaitCh`. -/
structure ShutdownWorld where
  qmpOpenErr : Option Err       -- qmp.NewSocketMonitor error
  qmpConnectErr : Option Err    -- qmpClient.Connect() error
  powerdownErr : Option Err     -- rawClient.SystemPowerdown() error
  killErr : Option Err          -- qCmd.Process.Kill() error (logged only)
  exitsWithinTimeout : Bool     -- select: qWaitCh fires before the deadline
  qWaitErr : Option Err         -- the value received from qWaitCh
deriving Repr, DecidableEq

/-- `(a *HostAgent) killQEMU` (hostagent.go:219-228): kill the process
(logging but ignoring a kill error), wait for its exit, remove
`qemu.pid`, and return the wait error. -/
def killQEMU (w : ShutdownWorld) : List Action × Option Err :=
  ([Action.killProcess, Action.removePidFile], w.qWaitErr)

/-- `(a *HostAgent) shutdownQEMU` (hostagent.go:189-217): open the QMP
socket, connect, send `system_powerdown`; on any of these failures fall
back to `killQEMU` immediately.  Otherwise race `qWaitCh` against the
timeout: on exit return the wait error, on deadline fall back to
`killQEMU`. -/
def shutdownQEMU (w : ShutdownWorld) : List Action × Option Err :=
  if w.qmpOpenErr.isSome then
    let (t, r) := killQEMU w
    ([Action.qmpOpen] ++ t, r)
  else if w.qmpConnectErr.isSome then
    let (t, r) := killQEMU w
    ([Action.qmpOpen, Action.qmpConnect] ++ t, r)
  else if w.powerdownErr.isSome then
    let (t, r) := killQEMU w
    ([Action.qmpOpen, Action.qmpConnect, Action.qmpPowerdown] ++ t, r)
  else if w.exitsWithinTimeout then
    ([Action.qmpOpen, Action.qmpConnect, Action.qmpPowerdown], w.qWaitErr)
  else
    let (t, r) := killQEMU w
    ([Action.qmpOpen, Action.qmpConnect, Action.qmpPowerdown,
      Action.timeoutElapsed] ++ t, r)

/-- C3: in the shutdown protocol with a working QMP path (open, connect
and power-down all succeed), if the process exits within the graceful
timeout the protocol returns that exit result and never invokes forced
kill; if it never exits, the protocol invokes forced kill exactly once,
only after the timeout has elapsed, and removes the pid file. -/
theorem shutdownQEMU_graceful_or_forced (w : ShutdownWorld)
    (hOpen : w.qmpOpenErr = none) (hConn : w.qmpConnectErr = none)
    (hPd : w.powerdownErr = none) :
    (w.exitsWithinTimeout = true →
      (shutdownQEMU w).2 = w.qWaitErr ∧
      Action.killProcess ∉ (shutdownQEMU w).1) ∧
    (w.exitsWithinTimeout = false →
      (shutdownQEMU w).1.count Action.killProcess = 1 ∧
      (shutdownQEMU w).1 =
        [Action.qmpOpen, Action.qmpConnect, Action.qmpPowerdown,
         Action.timeoutElapsed, Action.killProcess, Action.removePidFile]) := by
  constructor <;> intro hExit <;>
    simp [shutdownQEMU, killQEMU, hOpen, hConn, hPd, hExit, List.count_cons]

theorem shutdownQEMU_graceful_or_forced_witness :
    ((⟨none, none, none, none, true, none⟩ : ShutdownWorld).exitsWithinTimeout = true →
      (shutdownQEMU ⟨none, none, none, none, true, none⟩).2 =
        (⟨none, none, none, none, true, none⟩ : ShutdownWorld).qWaitErr ∧
      Action.killProcess ∉ (shutdownQEMU ⟨none, none, none, none, true, none⟩).1) ∧
    ((⟨none, none, none, none, true, none⟩ : ShutdownWorld).exitsWithinTimeout = false →
      (shutdownQEMU ⟨none, none, none, none, true, none⟩).1.count Action.killProcess = 1 ∧
      (shutdownQEMU ⟨none, none, none, none, true, none⟩).1 =
        [Action.qmpOpen, Action.qmpConnect, Action.qmpPowerdown,
         Action.timeoutElapsed, Action.killProcess, Action.removePidFile]) :=
  shutdownQEMU_graceful_or_forced ⟨none, none, none, none, true, none⟩ rfl rfl rfl

/-- C4: if opening the QMP socket fails, or the connect handshake fails,
or sending `system_powerdown` fails, the shutdown protocol kills the
process directly, without waiting for the graceful-exit timeout. -/
theorem shutdownQEMU_qmp_failure_kills_without_wait (w : ShutdownWorld)
    (h : w.qmpOpenErr.isSome ∨ w.qmpConnectErr.isSome ∨ w.powerdownErr.isSome) :
    Action.killProcess ∈ (shutdownQEMU w).1 ∧
    Action.timeoutElapsed ∉ (shutdownQEMU w).1 := by
  rcases h with h | h | h <;>
    · simp only [shutdownQEMU, killQEMU, h]
      rcases h1 : w.qmpOpenErr.isSome <;> rcases h2 : w.qmpConnectErr.isSome <;>
        simp_all

theorem shutdownQEMU_qmp_failure_kills_without_wait_witness :
    Action.killProcess ∈
      (shutdownQEMU ⟨some "open failed", none, none, none, true, none⟩).1 ∧
    Action.timeoutElapsed ∉
      (shutdownQEMU ⟨some "open failed", none, none, none, true, none⟩).1 :=
  shutdownQEMU_qmp_failure_kills_without_wait
    ⟨some "open failed", none, none, none, true, none⟩ (Or.inl rfl)

/-- The result of `multierror.Append` folding over a list of collected
error messages: Go's `mErr` stays nil when nothing was appended. -/
def combine (es : List Err) : Option Err :=
  match es with
  | [] => none
  | _ => some (String.intercalate "; " es)

/-- One provisioned mount (`a.setupMounts` result entry): its index in
the returned slice and the error of its `close()`. -/
structure Mount where
  label : Nat
  closeErr : Option Err
deriving Repr, DecidableEq

/-- The teardown entry registered for the mounts
(hostagent.go:246-254): one closure that iterates the `mounts` slice in
forward order, closing each mount and aggregating the errors. -/
def unmountAction (mounts : List Mount) : TDAction :=
  { trace := mounts.map fun m => Action.unmount m.label,
    result := combine (mounts.filterMap Mount.closeErr) }

/-- The first teardown entry (hostagent.go:231-237): exit the SSH
master; its error is only logged, the closure always returns nil. -/
def sshMasterAction : TDAction :=
  { trace := [Action.sshMasterExit], result := none }

/-- Oracle for `startHostAgentRoutines` (hostagent.go:230-260). -/
structure RoutinesWorld where
  essentialErr : Option Err   -- waitForRequirements "essential"
  mounts : List Mount         -- the mounts setupMounts returns
  mountsErr : Option Err      -- the error setupMounts returns
  optionalErr : Option Err    -- waitForRequirements "optional"
deriving Repr, DecidableEq

/-- `(a *HostAgent) startHostAgentRoutines` (hostagent.go:230-260):
register the SSH-master teardown, wait for essential requirements,
set up mounts, register their combined teardown, and wait for optional
requirements; every stage failure is appended to `mErr`.  Returns the
resulting `onClose` list (in registration order) and `mErr`. -/
def startHostAgentRoutines (w : RoutinesWorld) : List TDAction × Option Err :=
  ([sshMasterAction, unmountAction w.mounts],
   combine (w.essentialErr.toList ++ w.mountsErr.toList ++ w.optionalErr.toList))

/-- Oracle for `Run` (hostagent.go:115-187): which startup calls fail,
the startup-routine outcome, which select branch fires, and the QEMU
wait result. -/
structure RunWorld where
  sshLocalPort : Int            -- a.y.SSH.LocalPort
  stdoutPipeErr : Option Err    -- qCmd.StdoutPipe() error
  stderrPipeErr : Option Err    -- qCmd.StderrPipe() error
  startErr : Option Err         -- qCmd.Start() error
  sshKeygenErr : Option Err     -- ssh-keygen -R invocation error
  routines : RoutinesWorld      -- oracle for startHostAgentRoutines
  routineDone : Bool            -- startup goroutine emitted before Run returned
  interruptFirst : Bool         -- select: sigintCh fires before qWaitCh
  qWaitErr : Option Err         -- qCmd.Wait() result read in the main loop
  shutdown : ShutdownWorld      -- oracle for shutdownQEMU
deriving Repr, DecidableEq

/-- The terminal event status emitted by `Run`'s deferred function
(hostagent.go:116-123). -/
def abortStatus : Status := { aborted := true }

/-- `stBooting` (hostagent.go:151-154): the status of the first event,
a copy of `stBase`, carrying only the SSH local port. -/
def bootingStatus (port : Int) : Status := { sshLocalPort := port }

/-- `stRunning` (hostagent.go:164-171): a copy of `stBase` with
`Running` set; when `startHostAgentRoutines` failed, `Degraded` is set
and the error message is appended to the (empty) error list. -/
def runningStatus (port : Int) (haErr : Option Err) : Status :=
  { sshLocalPort := port, running := true, degraded := haErr.isSome,
    errors := haErr.toList }

/-- `(a *HostAgent) Run` (hostagent.go:115-187) as a sequential
linearization: the trace of visible actions and the returned error.
The startup goroutine's single status emission (hostagent.go:164-172)
is linearized after the known-hosts reset when `routineDone` holds, and
absent when `Run` returns before the goroutine got to emit; the
deferred abort emission closes every trace. -/
def Run (w : RunWorld) : List Action × Option Err :=
  if w.stdoutPipeErr.isSome then ([Action.emit abortStatus], w.stdoutPipeErr)
  else if w.stderrPipeErr.isSome then ([Action.emit abortStatus], w.stderrPipeErr)
  else if w.startErr.isSome then ([Action.emit abortStatus], w.startErr)
  else if w.sshLocalPort < 0 then
    ([Action.spawnQEMU, Action.emit abortStatus],
     some ("invalid ssh local port " ++ toString w.sshLocalPort))
  else
    let pre := [Action.spawnQEMU, Action.emit (bootingStatus w.sshLocalPort),
                Action.runSSHKeygen]
    if w.sshKeygenErr.isSome then
      (pre ++ [Action.emit abortStatus], w.sshKeygenErr)
    else
      let (onClose, haErr) := startHostAgentRoutines w.routines
      let routineTrace :=
        if w.routineDone then [Action.emit (runningStatus w.sshLocalPort haErr)]
        else []
      if w.interruptFirst then
        let (tdTrace, _tdErrs) := close onClose
        let (sdTrace, sdRes) := shutdownQEMU w.shutdown
        (pre ++ routineTrace ++ tdTrace ++ sdTrace ++ [Action.emit abortStatus],
         sdRes)
      else
        (pre ++ routineTrace ++ [Action.emit abortStatus], w.qWaitErr)

/-- The statuses emitted along a trace, in emission order. -/
def eventsOf (l : List Action) : List Status :=
  l.filterMap fun a =>
    match a with
    | Action.emit s => some s
    | _ => none

theorem eventsOf_nil : eventsOf [] = [] := rfl

theorem eventsOf_cons (a : Action) (l : List Action) :
    eventsOf (a :: l) =
      (match a with | Action.emit s => [s] | _ => []) ++ eventsOf l := by
  cases a <;> simp [eventsOf]

theorem eventsOf_append (l1 l2 : List Action) :
    eventsOf (l1 ++ l2) = eventsOf l1 ++ eventsOf l2 := by
  simp [eventsOf, List.filterMap_append]

theorem eventsOf_unmounts (ms : List Mount) :
    eventsOf (ms.map fun m => Action.unmount m.label) = [] := by
  induction ms with
  | nil => rfl
  | cons m ms ih => rw [List.map_cons, eventsOf_cons, ih]; rfl

theorem eventsOf_shutdownQEMU (w : ShutdownWorld) :
    eventsOf (shutdownQEMU w).1 = [] := by
  rcases w with ⟨o, c, p, k, e, q⟩
  cases o <;> cases c <;> cases p <;> cases e <;>
    simp [shutdownQEMU, killQEMU, eventsOf]

/-- The non-terminal statuses `Run` emits, as decided by its oracle:
empty on the startup-fatal paths, otherwise the booting status followed
(when the startup goroutine got to emit) by the running status. -/
def preEvents (w : RunWorld) : List Status :=
  if w.stdoutPipeErr.isSome ∨ w.stderrPipeErr.isSome ∨ w.startErr.isSome ∨
      w.sshLocalPort < 0 then []
  else
    bootingStatus w.sshLocalPort ::
      (if w.sshKeygenErr.isSome then []
       else if w.routineDone then
         [runningStatus w.sshLocalPort (startHostAgentRoutines w.routines).2]
       else [])

theorem eventsOf_Run (w : RunWorld) :
    eventsOf (Run w).1 = preEvents w ++ [abortStatus] := by
  rcases w with ⟨port, e1, e2, e3, e4, rw, rd, intf, qe, sw⟩
  cases e1 <;> cases e2 <;> cases e3 <;> cases e4 <;> cases rd <;> cases intf <;>
    by_cases hp : port < 0 <;>
      simp [Run, preEvents, hp, eventsOf_append, eventsOf_cons, eventsOf_nil,
            eventsOf_unmounts, eventsOf_shutdownQEMU, close,
            sshMasterAction, unmountAction]

theorem preEvents_not_aborted (w : RunWorld) :
    ∀ s ∈ preEvents w, s.aborted = false := by
  intro s hs
  unfold preEvents at hs
  split at hs
  · simp at hs
  · rcases List.mem_cons.mp hs with h | h
    · simp [h, bootingStatus]
    · split at h <;> [skip; split at h] <;> simp_all [runningStatus]

/-- C5: on every return path of `Run` — startup-fatal errors, hypervisor
exit, and post-interrupt shutdown alike — the event sequence is nonempty,
its last event is the `aborted = true` status, and every earlier event of
the sequence has `aborted = false`: `aborted` appears only as the final
event. -/
theorem run_abort_event_is_final (w : RunWorld) :
    (eventsOf (Run w).1).getLast? = some abortStatus ∧
    ∀ s ∈ (eventsOf (Run w).1).dropLast, s.aborted = false := by
  rw [eventsOf_Run]
  refine ⟨?_, ?_⟩
  · rw [List.getLast?_concat]
  · rw [List.dropLast_concat]
    exact preEvents_not_aborted w

/-- C1 counterexample: with SSH local port −1 and every earlier call of
`Run` succeeding, `Run` does return an error, but the hypervisor process
has already been spawned when it does — `qCmd.Start()` precedes the port
check in the source — refuting "before any process is spawned". -/
theorem run_negative_port_spawn_counterexample :
    (Run ⟨-1, none, none, none, none, ⟨none, [], none, none⟩, false, false,
          none, ⟨none, none, none, none, true, none⟩⟩).2.isSome = true ∧
    Action.spawnQEMU ∈
      (Run ⟨-1, none, none, none, none, ⟨none, [], none, none⟩, false, false,
            none, ⟨none, none, none, none, true, none⟩⟩).1 := by
  refine ⟨rfl, ?_⟩
  simp [Run]

/-- C1 (amended): for every configuration whose configured SSH local
port is negative (pipe setup and process start succeeding), `Run`
returns the invalid-port error immediately after starting the
hypervisor: the process has been spawned, but no status event is
emitted and no later startup step runs. -/
theorem run_negative_port_error_after_spawn (w : RunWorld)
    (h1 : w.stdoutPipeErr = none) (h2 : w.stderrPipeErr = none)
    (h3 : w.startErr = none) (hp : w.sshLocalPort < 0) :
    Run w = ([Action.spawnQEMU, Action.emit abortStatus],
             some ("invalid ssh local port " ++ toString w.sshLocalPort)) := by
  simp [Run, h1, h2, h3, hp]

theorem run_negative_port_error_after_spawn_witness :
    Run ⟨-1, none, none, none, none, ⟨none, [], none, none⟩, false, false,
         none, ⟨none, none, none, none, true, none⟩⟩ =
      ([Action.spawnQEMU, Action.emit abortStatus],
       some ("invalid ssh local port " ++ toString (-1 : Int))) :=
  run_negative_port_error_after_spawn
    ⟨-1, none, none, none, none, ⟨none, [], none, none⟩, false, false,
     none, ⟨none, none, none, none, true, none⟩⟩ rfl rfl rfl (by decide)

/-- Recognizes the invocation of a mount teardown. -/
def isUnmountAct : Action → Bool
  | Action.unmount _ => true
  | _ => false

/-- Recognizes an action of any registered teardown entry
(`onClose`): a mount close or the SSH-master exit. -/
def isTeardownAct : Action → Bool
  | Action.unmount _ => true
  | Action.sshMasterExit => true
  | _ => false

/-- Recognizes an action of the shutdown protocol
(`shutdownQEMU`/`killQEMU`). -/
def isShutdownAct : Action → Bool
  | Action.qmpOpen => true
  | Action.qmpConnect => true
  | Action.qmpPowerdown => true
  | Action.timeoutElapsed => true
  | Action.killProcess => true
  | Action.removePidFile => true
  | _ => false

theorem shutdownQEMU_trace_shutdown_acts (w : ShutdownWorld) :
    ∀ a ∈ (shutdownQEMU w).1, isShutdownAct a = true := by
  rcases w with ⟨o, c, p, k, e, q⟩
  cases o <;> cases c <;> cases p <;> cases e <;>
    simp [shutdownQEMU, killQEMU, isShutdownAct]

theorem isShutdownAct_not_unmount (a : Action) (h : isShutdownAct a = true) :
    isUnmountAct a = false := by
  cases a <;> simp_all [isShutdownAct, isUnmountAct]

theorem filter_unmounts_self (ms : List Mount) :
    (ms.map fun m => Action.unmount m.label).filter isUnmountAct =
      ms.map fun m => Action.unmount m.label := by
  induction ms with
  | nil => rfl
  | cons m ms ih => simp [isUnmountAct, ih]

/-- The action trace of `Run` on the interrupt branch, in order:
startup actions, the optional running event, the teardown stack in LIFO
entry order (mount closes in forward mount order, then the SSH-master
exit), the shutdown protocol, the terminal abort event. -/
theorem Run_interrupt_trace (w : RunWorld)
    (h1 : w.stdoutPipeErr = none) (h2 : w.stderrPipeErr = none)
    (h3 : w.startErr = none) (hp : ¬ w.sshLocalPort < 0)
    (h4 : w.sshKeygenErr = none) (hi : w.interruptFirst = true) :
    (Run w).1 =
      ([Action.spawnQEMU, Action.emit (bootingStatus w.sshLocalPort),
        Action.runSSHKeygen] ++
       (if w.routineDone then
          [Action.emit
            (runningStatus w.sshLocalPort (startHostAgentRoutines w.routines).2)]
        else []) ++
       ((w.routines.mounts.map fun m => Action.unmount m.label) ++
        [Action.sshMasterExit])) ++
      ((shutdownQEMU w.shutdown).1 ++ [Action.emit abortStatus]) := by
  cases hrd : w.routineDone <;>
    simp [Run, h1, h2, h3, hp, h4, hi, hrd, close, sshMasterAction,
          unmountAction, startHostAgentRoutines]

theorem shutdownQEMU_filter_unmount (w : ShutdownWorld) :
    (shutdownQEMU w).1.filter isUnmountAct = [] := by
  rcases w with ⟨o, c, p, k, e, q⟩
  cases o <;> cases c <;> cases p <;> cases e <;>
    simp [shutdownQEMU, killQEMU, isUnmountAct]

/-- An interrupt-branch world with two mounts provisioned, mount 0
before mount 1, both closing cleanly, and a fully successful startup. -/
def twoMountWorld : RunWorld :=
  ⟨60022, none, none, none, none, ⟨none, [⟨0, none⟩, ⟨1, none⟩], none, none⟩,
   true, true, none, ⟨none, none, none, none, true, none⟩⟩

/-- C6 counterexample: with mounts 0 and 1 provisioned in that order,
the interrupt-branch trace closes mount 0 before mount 1 — the forward
order of the mounts slice, not the reverse of registration order the
claim asserts (a single teardown entry iterates the slice forward). -/
theorem run_interrupt_unmount_order_counterexample :
    (Run twoMountWorld).1.filter isUnmountAct =
      [Action.unmount 0, Action.unmount 1] ∧
    (Run twoMountWorld).1.filter isUnmountAct ≠
      [Action.unmount 1, Action.unmount 0] := by
  constructor
  · simp [Run, twoMountWorld, close, sshMasterAction, unmountAction,
          startHostAgentRoutines, shutdownQEMU, killQEMU, isUnmountAct]
  · simp [Run, twoMountWorld, close, sshMasterAction, unmountAction,
          startHostAgentRoutines, shutdownQEMU, killQEMU, isUnmountAct]

/-- C6 (amended): on the interrupt branch every mount teardown is
invoked — in the forward order of the provisioned mounts slice, all by
one teardown entry — and all of them run before the shutdown protocol
performs any action: the trace splits into a prefix free of shutdown
actions holding every unmount, and a suffix free of unmounts. -/
theorem run_interrupt_unmounts_before_shutdown (w : RunWorld)
    (h1 : w.stdoutPipeErr = none) (h2 : w.stderrPipeErr = none)
    (h3 : w.startErr = none) (hp : ¬ w.sshLocalPort < 0)
    (h4 : w.sshKeygenErr = none) (hi : w.interruptFirst = true) :
    (Run w).1.filter isUnmountAct =
      w.routines.mounts.map (fun m => Action.unmount m.label) ∧
    ∃ t1 t2, (Run w).1 = t1 ++ t2 ∧
      (∀ a ∈ t1, isShutdownAct a = false) ∧
      (∀ a ∈ t2, isUnmountAct a = false) := by
  have htr := Run_interrupt_trace w h1 h2 h3 hp h4 hi
  refine ⟨?_, ?_⟩
  · rw [htr]
    cases hrd : w.routineDone <;>
      simp [List.filter_append, filter_unmounts_self,
            shutdownQEMU_filter_unmount, isUnmountAct]
  · rw [htr]
    refine ⟨_, _, rfl, ?_, ?_⟩
    · simp only [List.forall_mem_append]
      refine ⟨⟨?_, ?_⟩, ?_, ?_⟩
      · simp [isShutdownAct]
      · split <;> simp [isShutdownAct]
      · intro a ha
        obtain ⟨m, -, rfl⟩ := List.mem_map.mp ha
        rfl
      · simp [isShutdownAct]
    · simp only [List.forall_mem_append]
      exact ⟨fun a ha =>
          isShutdownAct_not_unmount a (shutdownQEMU_trace_shutdown_acts _ a ha),
        by simp [isUnmountAct]⟩

theorem run_interrupt_unmounts_before_shutdown_witness :
    ((Run twoMountWorld).1.filter isUnmountAct =
      twoMountWorld.routines.mounts.map (fun m => Action.unmount m.label)) ∧
    (∃ t1 t2, (Run twoMountWorld).1 = t1 ++ t2 ∧
      (∀ a ∈ t1, isShutdownAct a = false) ∧
      (∀ a ∈ t2, isUnmountAct a = false)) :=
  run_interrupt_unmounts_before_shutdown twoMountWorld
    rfl rfl rfl (by decide) rfl rfl

/-- C7: when the hypervisor exits on its own (the interrupt branch never
fires), `Run` returns the process wait error directly, and no teardown
action — neither a mount close nor the SSH-master exit — appears in the
trace: the teardown stack is not run on this path. -/
theorem run_qemu_exit_skips_teardown (w : RunWorld)
    (h1 : w.stdoutPipeErr = none) (h2 : w.stderrPipeErr = none)
    (h3 : w.startErr = none) (hp : ¬ w.sshLocalPort < 0)
    (h4 : w.sshKeygenErr = none) (hi : w.interruptFirst = false) :
    (Run w).2 = w.qWaitErr ∧
    ∀ a ∈ (Run w).1, isTeardownAct a = false := by
  cases hrd : w.routineDone <;>
    simp [Run, h1, h2, h3, hp, h4, hi, hrd, isTeardownAct]

theorem run_qemu_exit_skips_teardown_witness :
    ((Run ⟨60022, none, none, none, none, ⟨none, [⟨0, none⟩], none, none⟩,
           true, false, some "exit status 1",
           ⟨none, none, none, none, true, none⟩⟩).2 = some "exit status 1") ∧
    (∀ a ∈ (Run ⟨60022, none, none, none, none, ⟨none, [⟨0, none⟩], none, none⟩,
                 true, false, some "exit status 1",
                 ⟨none, none, none, none, true, none⟩⟩).1,
       isTeardownAct a = false) :=
  run_qemu_exit_skips_teardown
    ⟨60022, none, none, none, none, ⟨none, [⟨0, none⟩], none, none⟩,
     true, false, some "exit status 1", ⟨none, none, none, none, true, none⟩⟩
    rfl rfl rfl (by decide) rfl rfl

/-- Oracle for `isGuestAgentSocketAccessible` (hostagent.go:310-317). -/
structure ProbeWorld where
  newClientErr : Option Err   -- guestagentclient.NewGuestAgentClient error
  infoErr : Option Err        -- client.Info(ctx) error
deriving Repr, DecidableEq

/-- `isGuestAgentSocketAccessible` (hostagent.go:310-317): create a
guest-agent client on the local socket and call `Info`; accessible iff
both succeed. -/
def isGuestAgentSocketAccessible (w : ProbeWorld) : Bool :=
  if w.newClientErr.isSome then false
  else w.infoErr.isNone

/-- Oracle for `processGuestAgentEvents` (hostagent.go:319-344). -/
structure GuestAgentWorld where
  newClientErr : Option Err   -- guestagentclient.NewGuestAgentClient error
  infoErr : Option Err        -- client.Info(ctx) error
  eventsErr : Option Err      -- client.Events(ctx, onEvent) error
deriving Repr, DecidableEq

/-- The `io.EOF` sentinel error. -/
def ioEOF : Err := "EOF"

/-- `(a *HostAgent) processGuestAgentEvents` (hostagent.go:319-344):
dial the guest agent, fetch its info, subscribe to its event stream;
each failure is returned, and a normally-ended subscription returns
`io.EOF` — never nil. -/
def processGuestAgentEvents (w : GuestAgentWorld) : Option Err :=
  if w.newClientErr.isSome then w.newClientErr
  else if w.infoErr.isSome then w.infoErr
  else if w.eventsErr.isSome then w.eventsErr
  else some ioEOF

/-- Oracle for one cycle of `watchGuestAgentEvents`. -/
structure WatcherWorld where
  probe : ProbeWorld
  ga : GuestAgentWorld
deriving Repr, DecidableEq

/-- One iteration of the `for` loop of `watchGuestAgentEvents`
(hostagent.go:281-293), up to the cancellation select: probe the local
socket; when unreachable, remove the stale socket file and attempt one
SSH forward re-establishment; then run `processGuestAgentEvents`,
logging the connection-closed warning when it returns non-nil. -/
def watchGuestAgentEventsCycle (w : WatcherWorld) : List Action :=
  (if isGuestAgentSocketAccessible w.probe then []
   else [Action.removeLocalSock, Action.forwardAttempt]) ++
  (if (processGuestAgentEvents w.ga).isSome then [Action.warnClosed] else [])

/-- C8: in every watcher cycle, a reachable local endpoint means no
forward re-establishment and no stale-file deletion is attempted; an
unreachable one means the stale local socket file is deleted first and
exactly one forward re-establishment is attempted, immediately after. -/
theorem watcher_forward_only_when_unreachable (w : WatcherWorld) :
    (isGuestAgentSocketAccessible w.probe = true →
      Action.forwardAttempt ∉ watchGuestAgentEventsCycle w ∧
      Action.removeLocalSock ∉ watchGuestAgentEventsCycle w) ∧
    (isGuestAgentSocketAccessible w.probe = false →
      (watchGuestAgentEventsCycle w).count Action.forwardAttempt = 1 ∧
      ∃ t, watchGuestAgentEventsCycle w =
        Action.removeLocalSock :: Action.forwardAttempt :: t) := by
  constructor <;> intro hacc <;>
    cases hev : (processGuestAgentEvents w.ga).isSome <;>
      simp [watchGuestAgentEventsCycle, hacc, hev, List.count_cons]

theorem watcher_forward_only_when_unreachable_witness :
    (Action.forwardAttempt ∉
       watchGuestAgentEventsCycle ⟨⟨none, none⟩, ⟨none, none, none⟩⟩ ∧
     Action.removeLocalSock ∉
       watchGuestAgentEventsCycle ⟨⟨none, none⟩, ⟨none, none, none⟩⟩) ∧
    ((watchGuestAgentEventsCycle
        ⟨⟨some "dial error", none⟩, ⟨none, none, none⟩⟩).count
          Action.forwardAttempt = 1 ∧
     ∃ t, watchGuestAgentEventsCycle
            ⟨⟨some "dial error", none⟩, ⟨none, none, none⟩⟩ =
          Action.removeLocalSock :: Action.forwardAttempt :: t) :=
  ⟨(watcher_forward_only_when_unreachable
      ⟨⟨none, none⟩, ⟨none, none, none⟩⟩).1 rfl,
   (watcher_forward_only_when_unreachable
      ⟨⟨some "dial error", none⟩, ⟨none, none, none⟩⟩).2 rfl⟩

/-- C10: `processGuestAgentEvents` never returns nil — on a normally
closed subscription it returns `io.EOF` — so every watcher cycle ends
with the connection-closed-unexpectedly warning, normal closure
included. -/
theorem processGuestAgentEvents_never_nil (w : WatcherWorld) :
    (processGuestAgentEvents w.ga).isSome = true ∧
    Action.warnClosed ∈ watchGuestAgentEventsCycle w ∧
    processGuestAgentEvents ⟨none, none, none⟩ = some ioEOF := by
  rcases w with ⟨⟨pnc, pie⟩, ⟨nc, ie, ee⟩⟩
  cases nc <;> cases ie <;> cases ee <;> cases pnc <;> cases pie <;>
    simp [processGuestAgentEvents, watchGuestAgentEventsCycle,
          isGuestAgentSocketAccessible]

/-- JSON object for `Status` per the `json:"...,omitempty"` tags of
pkg/hostagent/api/api.go:7-15: `false` booleans, the empty error list
and a zero port are omitted; field order follows the struct. -/
def encodeStatus (s : Status) : String :=
  let fields :=
    (if s.running then ["\"running\":true"] else []) ++
    (if s.degraded then ["\"degraded\":true"] else []) ++
    (if s.aborted then ["\"aborted\":true"] else []) ++
    (if s.errors.isEmpty then [] else
      ["\"errors\":[" ++
        String.intercalate "," (s.errors.map fun e => "\"" ++ e ++ "\"") ++
        "]"]) ++
    (if s.sshLocalPort == 0 then [] else
      ["\"sshLocalPort\":" ++ toString s.sshLocalPort])
  "\x7b" ++ String.intercalate "," fields ++ "\x7d"

/-- JSON object for `Event` (pkg/hostagent/api/api.go:17-20): the
timestamp is omitted when zero (`omitempty`), the status object always
follows. -/
def encodeEvent (time : Option String) (s : Status) : String :=
  "\x7b" ++
  (match time with
   | some t => "\"time\":\"" ++ t ++ "\","
   | none => "") ++
  "\"status\":" ++ encodeStatus s ++ "\x7d"

/-- C9: with SSH local port 60022 and successful process setup, the
first event `Run` emits is the booting status whose `sshLocalPort` is
60022 and whose `running`, `degraded` and `aborted` flags are false
with no errors; with its zero-valued fields omitted it serializes as
`{"status":{"sshLocalPort":60022}}`. -/
theorem run_first_event_booting_60022 (w : RunWorld)
    (h1 : w.stdoutPipeErr = none) (h2 : w.stderrPipeErr = none)
    (h3 : w.startErr = none) (hport : w.sshLocalPort = 60022) :
    (eventsOf (Run w).1).head? =
      some { running := false, degraded := false, aborted := false,
             errors := [], sshLocalPort := 60022 } ∧
    encodeEvent none (bootingStatus 60022) =
      "\x7b\"status\":\x7b\"sshLocalPort\":60022\x7d\x7d" := by
  constructor
  · rw [eventsOf_Run]
    simp [preEvents, h1, h2, h3, hport, bootingStatus]
  · rfl

theorem run_first_event_booting_60022_witness :
    ((eventsOf (Run ⟨60022, none, none, none, none, ⟨none, [], none, none⟩,
                     true, false, none,
                     ⟨none, none, none, none, true, none⟩⟩).1).head? =
      some { running := false, degraded := false, aborted := false,
             errors := [], sshLocalPort := 60022 }) ∧
    encodeEvent none (bootingStatus 60022) =
      "\x7b\"status\":\x7b\"sshLocalPort\":60022\x7d\x7d" :=
  run_first_event_booting_60022
    ⟨60022, none, none, none, none, ⟨none, [], none, none⟩, true, false,
     none, ⟨none, none, none, none, true, none⟩⟩ rfl rfl rfl rfl

end Hostagent
